import Mathlib

/-!
# Verification of the MyLoc location-resolution and template-rendering pipeline

Shallow embedding of the plugin's core (`main.ts`): the data model, the
haversine distance calculator, the saved-place matcher, the template
renderer, the location acquisition fallback chain, the output composer
(`formatLocation`), and the frontmatter insertion callback.

Modelling conventions:
* TypeScript `number` is modelled as `ℝ` (the JavaScript doubles of the
  source are treated as exact reals; `Math.sin`/`cos`/`sqrt`/`atan2` become
  their real counterparts, with `atan2` spelled out following the JS
  specification for the quadrants the code can reach).
* Host-provided effects (reverse geocoding, weather fetch, the system
  clock, `Number.prototype.toFixed` / number-to-string conversion) are
  supplied through an explicit environment record; a `none` outcome of a
  network call models the call throwing (which the source catches).
* Invocations of the two enrichment services are counted explicitly so
  that "service X is (not) invoked" becomes a statement about the result.
-/

/-! ## Data model (interfaces of the source) -/

inductive MapProvider where
  | osm
  | google
deriving DecidableEq

inductive TempUnit where
  | celsius
  | fahrenheit
deriving DecidableEq

structure NamedTemplate where
  id : String
  name : String
  template : String

structure SavedPlace where
  id : String
  name : String
  latitude : ℝ
  longitude : ℝ
  radius : ℝ
  template : String

structure FrontmatterFields where
  location : Bool
  address : Bool
  datetime : Bool
  weather : Bool

structure MyLocSettings where
  format : String
  customTemplates : List NamedTemplate
  savedPlaces : List SavedPlace
  mapProvider : MapProvider
  language : String
  timezone : String
  tempUnit : TempUnit
  includeTimestamp : Bool
  includeWeather : Bool
  frontmatterFields : FrontmatterFields

structure LocationResult where
  latitude : ℝ
  longitude : ℝ
  accuracy : ℝ
  isApproximate : Bool

structure AddressResult where
  display : String
  city : Option String
  country : Option String

/-- `temperature` is `Math.round`ed on receipt in `getWeather`, hence an
integer. -/
structure WeatherResult where
  temperature : ℤ
  unit : String
  description : String

/-! ## Distance Calculator (`haversineDistance`)

`Math.atan2` as specified by ECMAScript, restricted to non-NaN inputs. -/

noncomputable def atan2 (y x : ℝ) : ℝ :=
  if 0 < x then Real.arctan (y / x)
  else if x < 0 then
    (if 0 ≤ y then Real.arctan (y / x) + Real.pi
     else Real.arctan (y / x) - Real.pi)
  else
    (if 0 < y then Real.pi / 2
     else if y < 0 then -(Real.pi / 2)
     else 0)

noncomputable def toRad (deg : ℝ) : ℝ := deg * Real.pi / 180

noncomputable def haversineDistance (lat1 lon1 lat2 lon2 : ℝ) : ℝ :=
  let R : ℝ := 6371000
  let dLat := toRad (lat2 - lat1)
  let dLon := toRad (lon2 - lon1)
  let a := Real.sin (dLat / 2) ^ 2 +
    Real.cos (toRad lat1) * Real.cos (toRad lat2) * Real.sin (dLon / 2) ^ 2
  R * 2 * atan2 (Real.sqrt a) (Real.sqrt (1 - a))

/-! ## Template Renderer (`applyTemplate`)

The source substitutes with the regex replace
`template.replace(/\{(\w+)\}/g, (_, key) => values[key] || "")`.
We model the left-to-right regex scan over the character list: at a `{`
the scanner greedily takes word characters (`\w` = ASCII alphanumerics
and underscore; `}` is not a word character, so greediness needs no
backtracking); a match requires at least one word character followed by
`}`.  On a failed match the regex engine restarts one character later,
which is exactly the `c :: renderChars values rest` fallthrough.
The replacement value `values[key] || ""` follows JavaScript property
lookup on the object literal `values`: an own property shadows everything
(and an own `""` is falsy, so `|| ""` again yields `""`, the value
itself); a key that is NOT an own property falls through to the
prototype chain, and every object literal inherits `Object.prototype`,
whose members (`toString`, `constructor`, `valueOf`, `hasOwnProperty`,
`__proto__`, ...) are all truthy, so for those keys the callback returns
the inherited member and `String.prototype.replace` coerces it to a
string; only a key absent from both the literal and `Object.prototype`
yields `undefined || "" = ""`.  An association list stands in for the
own properties of the `Record<string, string>`. -/

def isWordChar (c : Char) : Bool := c.isAlphanum || c == '_'

/-- The property keys every object literal inherits from
`Object.prototype`, paired with the string the replace callback's return
value coerces to: the engines' shared NativeFunction rendering
`function name() { [native code] }` for the function-valued members,
and `[object Object]` for the `__proto__` accessor (it returns
`Object.prototype` itself, whose string coercion is `[object Object]`). -/
def objectPrototypeMembers : List (String × String) :=
  [("constructor", "function Object() \x7b [native code] \x7d"),
   ("hasOwnProperty", "function hasOwnProperty() \x7b [native code] \x7d"),
   ("isPrototypeOf", "function isPrototypeOf() \x7b [native code] \x7d"),
   ("propertyIsEnumerable",
     "function propertyIsEnumerable() \x7b [native code] \x7d"),
   ("toLocaleString", "function toLocaleString() \x7b [native code] \x7d"),
   ("toString", "function toString() \x7b [native code] \x7d"),
   ("valueOf", "function valueOf() \x7b [native code] \x7d"),
   ("__proto__", "[object Object]"),
   ("__defineGetter__", "function __defineGetter__() \x7b [native code] \x7d"),
   ("__defineSetter__", "function __defineSetter__() \x7b [native code] \x7d"),
   ("__lookupGetter__", "function __lookupGetter__() \x7b [native code] \x7d"),
   ("__lookupSetter__", "function __lookupSetter__() \x7b [native code] \x7d")]

/-- `values[key] || ""`: the own property when present (a present `""` is
falsy, and `|| ""` turns it into `""` — the value itself), else the
inherited `Object.prototype` member coerced to a string, else `""`. -/
def lookupValue (values : List (String × String)) (key : String) : String :=
  match List.lookup key values with
  | some v => v
  | none => (List.lookup key objectPrototypeMembers).getD ""

def renderChars (values : List (String × String)) : List Char → List Char
  | [] => []
  | c :: rest =>
    if c = '{' then
      let key := rest.takeWhile isWordChar
      let rest1 := rest.dropWhile isWordChar
      if key ≠ [] ∧ rest1.head? = some '}' then
        (lookupValue values (String.mk key)).toList ++ renderChars values rest1.tail
      else
        c :: renderChars values rest
    else
      c :: renderChars values rest
termination_by l => l.length
decreasing_by
  · have h1 : (rest.dropWhile isWordChar).tail.length ≤
        (rest.dropWhile isWordChar).length := by
      cases rest.dropWhile isWordChar <;> simp
    have h2 : (rest.dropWhile isWordChar).length ≤ rest.length :=
      (List.dropWhile_suffix _).length_le
    simp only [List.length_cons]
    omega
  · simp
  · simp

def applyTemplate (template : String) (values : List (String × String)) : String :=
  String.mk (renderChars values template.toList)

/-! ## Place Matcher (`findMatchingPlaces`)

`Array.prototype.sort` with the comparator `(a, b) => a.distance - b.distance`
is a stable sort that orders by non-decreasing distance; `List.insertionSort`
with the corresponding `≤` relation is such a sort. -/

structure PlaceMatch where
  place : SavedPlace
  distance : ℝ

open Classical in
noncomputable def findMatchingPlaces (location : LocationResult)
    (savedPlaces : List SavedPlace) : List PlaceMatch :=
  List.insertionSort (fun a b => a.distance ≤ b.distance)
    ((savedPlaces.map (fun place =>
        { place := place
          distance := haversineDistance location.latitude location.longitude
            place.latitude place.longitude })).filter
      (fun m => decide (m.distance ≤ m.place.radius)))

/-! ## Output Composer environment

The composer `formatLocation` reads the configuration snapshot and calls
out to the host: reverse geocoding, weather fetch, the clock
(`formatDateTime`), number formatting (`toFixed(6)` and the implicit
number-to-string conversion of template literals).  These collaborators
are supplied as an environment record.  An `Option` result of `none`
models the corresponding network call throwing; the source wraps each
such call in `try { ... } catch {}`.  The `Calls` record counts how often
each enrichment service was invoked during one `formatLocation` run. -/

structure DateTimeParts where
  date : String
  time : String
  datetime : String
  iso : String

structure Env where
  settings : MyLocSettings
  toFixed6 : ℝ → String
  numToStr : ℝ → String
  now : DateTimeParts
  reverseGeocodeResult : Option AddressResult
  weatherResult : Option WeatherResult

structure Calls where
  reverseGeocode : Nat
  getWeather : Nat
deriving DecidableEq

def getMapUrl (env : Env) (lat lon : ℝ) : String :=
  if env.settings.mapProvider = MapProvider.google then
    "https://www.google.com/maps?q=" ++ env.numToStr lat ++ "," ++ env.numToStr lon
  else
    "https://www.openstreetmap.org/?mlat=" ++ env.numToStr lat ++ "&mlon=" ++
      env.numToStr lon ++ "#map=16/" ++ env.numToStr lat ++ "/" ++ env.numToStr lon

/-- `startsWithTok needle haystack`: is `needle` a leading segment of
`haystack`? -/
def startsWithTok : List Char → List Char → Bool
  | [], _ => true
  | _ :: _, [] => false
  | a :: as, b :: bs => a == b && startsWithTok as bs

/-- Does `needle` occur as a contiguous substring of `haystack`? -/
def containsTok (needle : List Char) : List Char → Bool
  | [] => startsWithTok needle []
  | c :: rest => startsWithTok needle (c :: rest) || containsTok needle rest

/-- The test `/\{(weather|temp)\}/.test(t)`: does `t` contain the substring
`{weather}` or `{temp}`? -/
def templateNeedsWeather (t : String) : Bool :=
  containsTok "{weather}".toList t.toList || containsTok "{temp}".toList t.toList

/-- `${weather.temperature}${weather.unit}, ${weather.description}` -/
def weatherLine (w : WeatherResult) : String :=
  toString w.temperature ++ w.unit ++ ", " ++ w.description

/-- `${weather.temperature}${weather.unit}` -/
def tempLine (w : WeatherResult) : String :=
  toString w.temperature ++ w.unit

/-- The value map built in the `SavedPlace` branch of `formatLocation`
(source lines 418–433): the place's name is used for both `address` and
`place`; `city` and `country` are the empty string. -/
def placeValues (env : Env) (location : LocationResult) (place : SavedPlace)
    (weatherStr tempStr : String) : List (String × String) :=
  let coords := env.toFixed6 location.latitude ++ ", " ++ env.toFixed6 location.longitude
  let approx := if location.isApproximate then " (approximate)" else ""
  let mapUrl := getMapUrl env location.latitude location.longitude
  [("lat", env.toFixed6 location.latitude),
   ("lon", env.toFixed6 location.longitude),
   ("coords", coords ++ approx),
   ("address", place.name),
   ("place", place.name),
   ("city", ""),
   ("country", ""),
   ("mapUrl", mapUrl),
   ("mapLink", "[Open in Map](" ++ mapUrl ++ ")"),
   ("date", env.now.date),
   ("time", env.now.time),
   ("datetime", env.now.datetime),
   ("weather", weatherStr),
   ("temp", tempStr)]

/-- The value map built in the custom-template branch of `formatLocation`
(source lines 464–479): `address?.display || ""`, `place` is empty,
`address?.city || ""`, `address?.country || ""`. -/
def customValues (env : Env) (location : LocationResult)
    (address : Option AddressResult) (weatherStr tempStr : String) :
    List (String × String) :=
  let coords := env.toFixed6 location.latitude ++ ", " ++ env.toFixed6 location.longitude
  let approx := if location.isApproximate then " (approximate)" else ""
  let mapUrl := getMapUrl env location.latitude location.longitude
  [("lat", env.toFixed6 location.latitude),
   ("lon", env.toFixed6 location.longitude),
   ("coords", coords ++ approx),
   ("address", (address.map AddressResult.display).getD ""),
   ("place", ""),
   ("city", (address.bind AddressResult.city).getD ""),
   ("country", (address.bind AddressResult.country).getD ""),
   ("mapUrl", mapUrl),
   ("mapLink", "[Open in Map](" ++ mapUrl ++ ")"),
   ("date", env.now.date),
   ("time", env.now.time),
   ("datetime", env.now.datetime),
   ("weather", weatherStr),
   ("temp", tempStr)]

/-- `!["full", "compact", "coords"].includes(id) ?
this.settings.customTemplates.find((t) => t.id === id) : null` -/
def lookupCustomTemplate (settings : MyLocSettings) (id : String) :
    Option NamedTemplate :=
  if id = "full" ∨ id = "compact" ∨ id = "coords" then none
  else settings.customTemplates.find? (fun t => t.id == id)

/-- The non-place path of `formatLocation`, after the format id has been
resolved (`const id = (formatIdOrPlace as string) || this.settings.format`):
the custom-template / coords / compact / full branches. -/
def formatLocationWithId (env : Env) (location : LocationResult)
    (id : String) : String × Calls :=
  let coords := env.toFixed6 location.latitude ++ ", " ++ env.toFixed6 location.longitude
  let approx := if location.isApproximate then " (approximate)" else ""
  let mapUrl := getMapUrl env location.latitude location.longitude
  let customTemplate := lookupCustomTemplate env.settings id
  -- `if (id !== "coords") { ... reverseGeocode ... }`
  let address := if id = "coords" then none else env.reverseGeocodeResult
  let needsWeather := env.settings.includeWeather ||
    (match customTemplate with
     | some t => templateNeedsWeather t.template
     | none => false)
  let weather := if needsWeather then env.weatherResult else none
  let weatherStr := (weather.map weatherLine).getD ""
  let tempStr := (weather.map tempLine).getD ""
  let calls : Calls :=
    { reverseGeocode := if id = "coords" then 0 else 1
      getWeather := if needsWeather then 1 else 0 }
  match customTemplate with
  | some t =>
      (applyTemplate t.template (customValues env location address weatherStr tempStr),
       calls)
  | none =>
      if id = "coords" then
        (coords ++ approx ++
          (if env.settings.includeTimestamp then " — " ++ env.now.datetime else "") ++
          (if weather.isSome then " — " ++ weatherStr else ""), calls)
      else if id = "compact" then
        ((match address with
          | some a => a.display ++ " (" ++ coords ++ ")" ++ approx
          | none => coords ++ approx) ++
          (if env.settings.includeTimestamp then " — " ++ env.now.datetime else "") ++
          (if weather.isSome then " — " ++ weatherStr else ""), calls)
      else
        -- Full format (also the fallback for unknown IDs)
        (String.intercalate "\n"
          ((match address with
            | some a => [a.display]
            | none => []) ++
           [coords ++ approx] ++
           (if env.settings.includeTimestamp then [env.now.datetime] else []) ++
           (if weather.isSome then [weatherStr] else []) ++
           ["[Open in Map](" ++ mapUrl ++ ")"]), calls)

/-- `formatLocation(location, formatIdOrPlace?)`.  The argument is
`string | SavedPlace | undefined`, modelled as `Option (String ⊕ SavedPlace)`.
Returns the rendered text together with the number of times the Address
Resolver (`reverseGeocode`) and the Weather Resolver (`getWeather`) were
invoked during the run.  An invocation whose `Option` result in `env` is
`none` still counts as invoked (the source calls it and catches the
error).  An empty string is falsy, so
`(formatIdOrPlace as string) || this.settings.format` falls back to the
configured format for `""` exactly as for `undefined`. -/
def formatLocation (env : Env) (location : LocationResult)
    (formatIdOrPlace : Option (String ⊕ SavedPlace)) : String × Calls :=
  match formatIdOrPlace with
  | some (Sum.inr place) =>
      -- `if (/\{(weather|temp)\}/.test(place.template)) { ... getWeather ... }`
      let fetchWeather := templateNeedsWeather place.template
      let weather := if fetchWeather then env.weatherResult else none
      let weatherStr := (weather.map weatherLine).getD ""
      let tempStr := (weather.map tempLine).getD ""
      (applyTemplate place.template (placeValues env location place weatherStr tempStr),
       { reverseGeocode := 0, getWeather := if fetchWeather then 1 else 0 })
  | some (Sum.inl s) =>
      formatLocationWithId env location (if s = "" then env.settings.format else s)
  | none => formatLocationWithId env location env.settings.format

/-! ## Location Acquirer (`getLocation`, `getIPLocation`, `getGPSLocation`)

`getGPSLocation` wraps `navigator.geolocation.getCurrentPosition`; any of
its failure modes (unsupported, denied, timeout) rejects the promise, so
its outcome is modelled as `Option LocationResult` (`none` = rejected).
`getIPLocation` performs one HTTP request; `none` for the response models
`requestUrl` throwing. -/

structure IPData where
  status : String
  message : Option String
  lat : ℝ
  lon : ℝ

/-- `getIPLocation`: throws when the transport fails or when
`data.status === "fail"`; otherwise returns the coordinate with
`accuracy: 5000` and `isApproximate: true`. -/
def getIPLocation (response : Option IPData) : Option LocationResult :=
  match response with
  | none => none
  | some data =>
      if data.status = "fail" then none
      else some { latitude := data.lat, longitude := data.lon,
                  accuracy := 5000, isApproximate := true }

/-- `getLocation`: `try { return await this.getGPSLocation(); } catch {
return await this.getIPLocation(); }` -/
def getLocation (gps : Option LocationResult) (ipResponse : Option IPData) :
    Option LocationResult :=
  match gps with
  | some l => some l
  | none => getIPLocation ipResponse

/-! ## Saved-place picker (`resolvePlace`, `SavedPlacePickerModal`)

`resolvePlace` returns `null` immediately when there are no matches;
otherwise it opens a `SuggestModal` whose option list is the matches
(nearest first) followed by a "Use detected location" entry, and wraps the
modal in a promise that is resolved only by `onChooseSuggestion`.  The
host's `SuggestModal` invokes `onChooseSuggestion` exactly when the user
selects an entry; dismissing the modal (Esc / clicking outside) closes it
without a selection, and the source installs no other resolution path, so
on dismissal the promise never settles.  `resolvePlaceOutcome … = none`
models that never-settling promise; `some (some p)` a chosen place;
`some none` the "Use detected location" entry (`place: null`). -/

structure PlacePickerOption where
  place : Option SavedPlace
  name : String
  description : String

open Classical in
noncomputable def pickerOptions (matchList : List PlaceMatch) :
    List PlacePickerOption :=
  matchList.map (fun m =>
    { place := some m.place
      name := m.place.name
      description := toString (round m.distance) ++ "m away" }) ++
  [{ place := none, name := "Use detected location",
     description := "Skip saved places" }]

inductive PickerResponse where
  | select (i : Nat)
  | dismiss

noncomputable def resolvePlaceOutcome (matchList : List PlaceMatch)
    (response : PickerResponse) : Option (Option SavedPlace) :=
  if matchList.length = 0 then some none
  else
    match response with
    | PickerResponse.dismiss => none
    | PickerResponse.select i =>
        if h : i < (pickerOptions matchList).length then
          some ((pickerOptions matchList).get ⟨i, h⟩).place
        else none

/-- Observable outcome of one user-triggered insertion cycle. -/
inductive ActionOutcome where
  | inserted (text : String)
  | failed
  | pending

/-- The ribbon-icon action (source lines 250–274): acquire the location,
resolve a saved place, and insert either the place-formatted text or the
default-format text; a failed acquisition collapses to the single
"Failed to get location" notice with nothing inserted (`failed`). -/
noncomputable def ribbonAction (env : Env) (gps : Option LocationResult)
    (ipResponse : Option IPData) (response : PickerResponse) : ActionOutcome :=
  match getLocation gps ipResponse with
  | none => ActionOutcome.failed
  | some location =>
      match resolvePlaceOutcome
        (findMatchingPlaces location env.settings.savedPlaces) response with
      | none => ActionOutcome.pending
      | some (some place) =>
          ActionOutcome.inserted
            (formatLocation env location (some (Sum.inr place))).1
      | some none =>
          ActionOutcome.inserted
            (formatLocation env location (some (Sum.inl env.settings.format))).1

/-! ## Frontmatter insertion (`insertFrontmatter`)

Models the callback passed to `app.fileManager.processFrontMatter`
(source lines 345–370) together with the values computed just before it.
The second component of the result records whether the
"Location already exists" notice fired (in which case the callback
returned before touching any field).  `location` stores
`[parseFloat(lat.toFixed(6)), parseFloat(lon.toFixed(6))]`, i.e. the
coordinates rounded to 6 decimal places. -/

noncomputable def round6 (x : ℝ) : ℝ := (round (x * 1000000) : ℤ) / 1000000

structure Frontmatter where
  location : Option (List ℝ)
  address : Option String
  datetime : Option String
  weather : Option String

noncomputable def insertFrontmatterCallback (update : Bool)
    (fields : FrontmatterFields) (location : LocationResult)
    (address : Option AddressResult) (weather : Option WeatherResult)
    (iso : String) (frontmatter : Frontmatter) : Frontmatter × Bool :=
  if update = false ∧ frontmatter.location.isSome then (frontmatter, true)
  else
    let fm1 := if fields.location then
      { frontmatter with
        location := some [round6 location.latitude, round6 location.longitude] }
      else frontmatter
    let fm2 := if fields.address then
      (match address with
       | some a => { fm1 with address := some a.display }
       | none => fm1)
      else fm1
    let fm3 := if fields.datetime then { fm2 with datetime := some iso } else fm2
    let fm4 := if fields.weather then
      (match weather with
       | some w => { fm3 with weather := some (weatherLine w) }
       | none => fm3)
      else fm3
    (fm4, false)

/-! ## Helper lemmas -/

lemma atan2_nonneg {y x : ℝ} (hy : 0 ≤ y) : 0 ≤ atan2 y x := by
  unfold atan2
  by_cases hx : 0 < x
  · simp only [if_pos hx]
    exact Real.arctan_zero ▸ Real.arctan_strictMono.monotone
      (div_nonneg hy hx.le)
  · simp only [if_neg hx]
    by_cases hx2 : x < 0
    · simp only [if_pos hx2, if_pos hy]
      have h1 : -(Real.pi / 2) < Real.arctan (y / x) :=
        Real.neg_pi_div_two_lt_arctan _
      have h2 : 0 < Real.pi := Real.pi_pos
      linarith
    · simp only [if_neg hx2]
      by_cases hy1 : 0 < y
      · simp only [if_pos hy1]
        positivity
      · simp only [if_neg hy1, if_neg (not_lt.mpr hy)]
        exact le_refl 0

lemma haversineDistance_nonneg (lat1 lon1 lat2 lon2 : ℝ) :
    0 ≤ haversineDistance lat1 lon1 lat2 lon2 := by
  unfold haversineDistance
  have h := atan2_nonneg (y := Real.sqrt (Real.sin (toRad (lat2 - lat1) / 2) ^ 2 +
    Real.cos (toRad lat1) * Real.cos (toRad lat2) *
      Real.sin (toRad (lon2 - lon1) / 2) ^ 2))
    (x := Real.sqrt (1 - (Real.sin (toRad (lat2 - lat1) / 2) ^ 2 +
    Real.cos (toRad lat1) * Real.cos (toRad lat2) *
      Real.sin (toRad (lon2 - lon1) / 2) ^ 2))) (Real.sqrt_nonneg _)
  positivity

lemma toRad_zero : toRad 0 = 0 := by simp [toRad]

lemma atan2_zero_one : atan2 0 1 = 0 := by
  unfold atan2
  rw [if_pos one_pos]
  simp [Real.arctan_zero]

lemma haversineDistance_self (lat lon : ℝ) :
    haversineDistance lat lon lat lon = 0 := by
  unfold haversineDistance
  simp only [sub_self, toRad_zero, zero_div, Real.sin_zero, ne_eq,
    OfNat.ofNat_ne_zero, not_false_eq_true, zero_pow, mul_zero, add_zero,
    zero_add, Real.sqrt_zero, sub_zero, Real.sqrt_one]
  rw [atan2_zero_one]
  ring


lemma renderChars_nil (values : List (String × String)) :
    renderChars values [] = [] := by
  rw [renderChars]

lemma renderChars_cons_ne (values : List (String × String)) {c : Char}
    (l : List Char) (h : ¬ c = '{') :
    renderChars values (c :: l) = c :: renderChars values l := by
  rw [renderChars]
  simp [h]

lemma takeWhile_word_append (key rest : List Char)
    (h : ∀ c ∈ key, isWordChar c = true) :
    (key ++ '}' :: rest).takeWhile isWordChar = key := by
  induction key with
  | nil => simp [List.takeWhile_cons, isWordChar]
  | cons c cs ih =>
      simp only [List.cons_append, List.takeWhile_cons,
        h c (List.mem_cons_self c cs), if_true, List.cons.injEq, true_and]
      exact ih (fun d hd => h d (List.mem_cons_of_mem c hd))

lemma dropWhile_word_append (key rest : List Char)
    (h : ∀ c ∈ key, isWordChar c = true) :
    (key ++ '}' :: rest).dropWhile isWordChar = '}' :: rest := by
  induction key with
  | nil => simp [List.dropWhile_cons, isWordChar]
  | cons c cs ih =>
      simp only [List.cons_append, List.dropWhile_cons,
        h c (List.mem_cons_self c cs), if_true]
      exact ih (fun d hd => h d (List.mem_cons_of_mem c hd))

lemma renderChars_token (values : List (String × String)) (key rest : List Char)
    (h1 : key ≠ []) (h2 : ∀ c ∈ key, isWordChar c = true) :
    renderChars values ('{' :: (key ++ '}' :: rest)) =
      (lookupValue values (String.mk key)).toList ++ renderChars values rest := by
  rw [renderChars]
  simp only [if_pos rfl, takeWhile_word_append key rest h2,
    dropWhile_word_append key rest h2, List.head?_cons, List.tail_cons]
  simp [h1]

lemma renderChars_literal (values : List (String × String)) (a l : List Char)
    (h : ∀ c ∈ a, ¬ c = '{') :
    renderChars values (a ++ l) = a ++ renderChars values l := by
  induction a with
  | nil => simp
  | cons c cs ih =>
      rw [List.cons_append,
        renderChars_cons_ne values (cs ++ l) (h c (List.mem_cons_self c cs)),
        ih (fun d hd => h d (List.mem_cons_of_mem c hd))]
      simp

lemma renderChars_all_literal (values : List (String × String)) (l : List Char)
    (h : ∀ c ∈ l, ¬ c = '{') : renderChars values l = l := by
  have h2 := renderChars_literal values l [] h
  rw [List.append_nil, renderChars_nil, List.append_nil] at h2
  exact h2

lemma applyTemplate_literal (values : List (String × String)) (t : String)
    (h : ∀ c ∈ t.toList, ¬ c = '{') : applyTemplate t values = t := by
  unfold applyTemplate
  rw [renderChars_all_literal values t.toList h]
  rfl

lemma applyTemplate_token_prefix (values : List (String × String))
    (key rest : String) (h1 : key.toList ≠ [])
    (h2 : ∀ c ∈ key.toList, isWordChar c = true) :
    applyTemplate ("\x7b" ++ key ++ "\x7d" ++ rest) values =
      lookupValue values key ++ applyTemplate rest values := by
  unfold applyTemplate
  have hdata : ("\x7b" ++ key ++ "\x7d" ++ rest).toList =
      '{' :: (key.toList ++ '}' :: rest.toList) := by
    show ("\x7b" ++ key ++ "\x7d" ++ rest).data = '{' :: (key.data ++ '}' :: rest.data)
    simp [String.data_append]
  rw [hdata, renderChars_token values _ _ h1 h2]
  rfl

lemma applyTemplate_empty (values : List (String × String)) :
    applyTemplate "" values = "" := by
  unfold applyTemplate
  rw [show "".toList = ([] : List Char) from rfl, renderChars_nil]

lemma applyTemplate_single_token (values : List (String × String)) (key : String)
    (h1 : key.toList ≠ []) (h2 : ∀ c ∈ key.toList, isWordChar c = true) :
    applyTemplate ("\x7b" ++ key ++ "\x7d") values = lookupValue values key := by
  have h3 := applyTemplate_token_prefix values key "" h1 h2
  have h4 : "\x7b" ++ key ++ "\x7d" ++ "" = "\x7b" ++ key ++ "\x7d" := by
    apply String.ext
    simp [String.data_append]
  rw [h4, applyTemplate_empty] at h3
  rw [h3]
  apply String.ext
  simp [String.data_append]

instance : IsTotal PlaceMatch (fun a b => a.distance ≤ b.distance) :=
  ⟨fun a b => le_total a.distance b.distance⟩

instance : IsTrans PlaceMatch (fun a b => a.distance ≤ b.distance) :=
  ⟨fun _ _ _ h1 h2 => le_trans h1 h2⟩

lemma mem_findMatchingPlaces {location : LocationResult}
    {savedPlaces : List SavedPlace} {m : PlaceMatch} :
    m ∈ findMatchingPlaces location savedPlaces ↔
      (m.place ∈ savedPlaces ∧
        m.distance = haversineDistance location.latitude location.longitude
          m.place.latitude m.place.longitude ∧
        m.distance ≤ m.place.radius) := by
  unfold findMatchingPlaces
  rw [List.mem_insertionSort, List.mem_filter]
  simp only [List.mem_map, decide_eq_true_eq]
  constructor
  · rintro ⟨⟨p, hp, rfl⟩, hle⟩
    exact ⟨hp, rfl, hle⟩
  · rintro ⟨hp, hd, hle⟩
    refine ⟨⟨m.place, hp, ?_⟩, hle⟩
    cases m with
    | mk place distance => simp_all

lemma sorted_findMatchingPlaces (location : LocationResult)
    (savedPlaces : List SavedPlace) :
    (findMatchingPlaces location savedPlaces).Sorted
      (fun a b : PlaceMatch => a.distance ≤ b.distance) := by
  unfold findMatchingPlaces
  exact List.sorted_insertionSort _ _

/-! ## Concrete inputs shared by witnesses and counterexamples -/

def defaultFields : FrontmatterFields :=
  { location := true, address := false, datetime := false, weather := false }

def settings0 : MyLocSettings :=
  { format := "full", customTemplates := [], savedPlaces := [],
    mapProvider := MapProvider.osm, language := "", timezone := "",
    tempUnit := TempUnit.celsius, includeTimestamp := false,
    includeWeather := false, frontmatterFields := defaultFields }

def env0 : Env :=
  { settings := settings0, toFixed6 := fun _ => "", numToStr := fun _ => "",
    now := { date := "", time := "", datetime := "", iso := "" },
    reverseGeocodeResult := none, weatherResult := none }

def loc0 : LocationResult :=
  { latitude := 0, longitude := 0, accuracy := 0, isApproximate := false }

def placeC2a : SavedPlace :=
  { id := "a", name := "A", latitude := 0, longitude := 0, radius := 1,
    template := "{place}\n{coords}" }

def placeC2b : SavedPlace :=
  { id := "b", name := "B", latitude := 0, longitude := 0, radius := 1,
    template := "{place}\n{coords}" }

def placeC3 : SavedPlace :=
  { id := "c", name := "Zero", latitude := 0, longitude := 0, radius := 0,
    template := "{place}\n{coords}" }

def placeC8 : SavedPlace :=
  { id := "d", name := "Home", latitude := 0, longitude := 0, radius := 200,
    template := "{place}\n{coords}" }

lemma findMatchingPlaces_single_eval (p : SavedPlace)
    (hlat : p.latitude = 0) (hlon : p.longitude = 0) (hr : (0 : ℝ) ≤ p.radius) :
    findMatchingPlaces loc0 [p] = [{ place := p, distance := 0 }] := by
  unfold findMatchingPlaces
  have h0 : haversineDistance loc0.latitude loc0.longitude p.latitude p.longitude = 0 := by
    rw [hlat, hlon]
    exact haversineDistance_self 0 0
  simp only [List.map_cons, List.map_nil, h0]
  simp only [List.filter_cons, List.filter_nil, decide_eq_true_eq]
  rw [if_pos hr]
  simp

lemma findMatchingPlaces_pair_eval :
    findMatchingPlaces loc0 [placeC2a, placeC2b] =
      [{ place := placeC2a, distance := 0 }, { place := placeC2b, distance := 0 }] := by
  unfold findMatchingPlaces
  have ha : haversineDistance loc0.latitude loc0.longitude
      placeC2a.latitude placeC2a.longitude = 0 := haversineDistance_self 0 0
  have hb : haversineDistance loc0.latitude loc0.longitude
      placeC2b.latitude placeC2b.longitude = 0 := haversineDistance_self 0 0
  simp only [List.map_cons, List.map_nil, ha, hb]
  simp only [List.filter_cons, List.filter_nil, decide_eq_true_eq]
  rw [if_pos (show (0 : ℝ) ≤ placeC2a.radius by norm_num [placeC2a]),
    if_pos (show (0 : ℝ) ≤ placeC2b.radius by norm_num [placeC2b])]
  simp only [List.insertionSort, List.orderedInsert]
  rw [if_pos (show ({ place := placeC2a, distance := 0 } : PlaceMatch).distance ≤
    ({ place := placeC2b, distance := 0 } : PlaceMatch).distance from le_refl 0)]

/-! ## Claim theorems -/

/-- C2 (amended): for every coordinate and every list of saved places, the
place matcher returns exactly those places whose haversine distance to the
coordinate is at most the place's radius (as a matched pair carrying that
distance), ordered ascending by distance (non-strictly: ties between equal
distances are possible); an empty place list, or no place within radius,
yields an empty result. -/
theorem findMatchingPlaces_spec (location : LocationResult)
    (savedPlaces : List SavedPlace) :
    (∀ m : PlaceMatch, m ∈ findMatchingPlaces location savedPlaces ↔
      (m.place ∈ savedPlaces ∧
        m.distance = haversineDistance location.latitude location.longitude
          m.place.latitude m.place.longitude ∧
        m.distance ≤ m.place.radius))
    ∧ (findMatchingPlaces location savedPlaces).Sorted
        (fun a b : PlaceMatch => a.distance ≤ b.distance)
    ∧ (savedPlaces = [] → findMatchingPlaces location savedPlaces = [])
    ∧ ((∀ p ∈ savedPlaces,
          ¬ haversineDistance location.latitude location.longitude
              p.latitude p.longitude ≤ p.radius) →
        findMatchingPlaces location savedPlaces = []) := by
  refine ⟨fun m => mem_findMatchingPlaces,
    sorted_findMatchingPlaces location savedPlaces, ?_, ?_⟩
  · rintro rfl
    unfold findMatchingPlaces
    simp
  · intro h
    have hempty : ∀ m : PlaceMatch, m ∉ findMatchingPlaces location savedPlaces := by
      intro m hm
      obtain ⟨hp, hd, hle⟩ := mem_findMatchingPlaces.mp hm
      exact h m.place hp (hd ▸ hle)
    exact List.eq_nil_iff_forall_not_mem.mpr hempty

/-- C2, counterexample to the claim as stated: two saved places at the same
coordinates are both within radius of a coordinate at their common center,
so both matches carry distance 0 and the result is not *strictly*
ascending by distance. -/
theorem findMatchingPlaces_not_strict_counterexample :
    (findMatchingPlaces loc0 [placeC2a, placeC2b]).map PlaceMatch.distance = [0, 0]
    ∧ ¬ List.Pairwise (fun a b : PlaceMatch => a.distance < b.distance)
        (findMatchingPlaces loc0 [placeC2a, placeC2b]) := by
  rw [findMatchingPlaces_pair_eval]
  refine ⟨rfl, fun h => ?_⟩
  have h2 := List.rel_of_pairwise_cons h
    (List.mem_singleton.mpr rfl)
  exact lt_irrefl (0 : ℝ) h2

/-- Witness for `findMatchingPlaces_spec`: its empty-list and no-match
hypotheses discharged at concrete inputs. -/
theorem findMatchingPlaces_spec_witness :
    findMatchingPlaces loc0 ([] : List SavedPlace) = [] :=
  (findMatchingPlaces_spec loc0 []).2.2.1 rfl

/-- C3 (amended): every match produced by the place matcher has a
non-negative distance that is at most the place's radius; hence a place
with strictly negative radius never matches.  A radius of exactly zero,
however, does match when the computed distance is exactly zero (see the
counterexample), and the matcher is a total function (it cannot crash). -/
theorem findMatchingPlaces_radius_bound (location : LocationResult)
    (savedPlaces : List SavedPlace) :
    ∀ m ∈ findMatchingPlaces location savedPlaces,
      0 ≤ m.distance ∧ m.distance ≤ m.place.radius ∧ 0 ≤ m.place.radius := by
  intro m hm
  obtain ⟨hp, hd, hle⟩ := mem_findMatchingPlaces.mp hm
  have h0 : 0 ≤ m.distance := hd ▸ haversineDistance_nonneg _ _ _ _
  exact ⟨h0, hle, le_trans h0 hle⟩

/-- C3, counterexample to the claim as stated: a saved place with radius 0
(a non-positive radius) at the very coordinate being resolved is matched
(distance 0 ≤ radius 0), so a non-positive radius is not a
"no match region". -/
theorem findMatchingPlaces_zero_radius_counterexample :
    placeC3.radius ≤ 0 ∧
      findMatchingPlaces loc0 [placeC3] = [{ place := placeC3, distance := 0 }] := by
  constructor
  · norm_num [placeC3]
  · exact findMatchingPlaces_single_eval placeC3 rfl rfl (le_refl 0)

/-- Witness for `findMatchingPlaces_radius_bound`: the membership
hypothesis discharged at a concrete matching place. -/
theorem findMatchingPlaces_radius_bound_witness :
    0 ≤ ({ place := placeC8, distance := 0 } : PlaceMatch).distance ∧
      ({ place := placeC8, distance := 0 } : PlaceMatch).distance ≤
        ({ place := placeC8, distance := 0 } : PlaceMatch).place.radius ∧
      0 ≤ ({ place := placeC8, distance := 0 } : PlaceMatch).place.radius :=
  findMatchingPlaces_radius_bound loc0 [placeC8]
    { place := placeC8, distance := 0 }
    (by rw [findMatchingPlaces_single_eval placeC8 rfl rfl (by norm_num [placeC8])]
        simp)

/-- C6 (amended): the template renderer replaces each token of the form
`{identifier}` (word characters only) following JavaScript property
lookup on the value map, never fails (it is a total function), and passes
literal text outside such tokens through unchanged.  A key that is an own
property of the map renders as its value (a present empty value and the
source's `values[key] || ""` coincide on `""`); a key absent from the map
renders as the empty string only when it also names no `Object.prototype`
member — keys such as `toString`, `constructor`, `valueOf`,
`hasOwnProperty` or `__proto__` substitute the inherited member coerced
to a string instead (see the counterexample).  The claim's concrete
examples `render("{a}{b}", {a:"x"}) = "x"` and `render("{lat}", {}) = ""`
do hold, since `b` and `lat` name no inherited member. -/
theorem applyTemplate_spec :
    (∀ (values : List (String × String)) (t : String),
        (∀ c ∈ t.toList, ¬ c = '{') → applyTemplate t values = t)
    ∧ (∀ (values : List (String × String)) (key rest : String),
        ¬ key.toList = [] → (∀ c ∈ key.toList, isWordChar c = true) →
        applyTemplate ("\x7b" ++ key ++ "\x7d" ++ rest) values =
          lookupValue values key ++ applyTemplate rest values)
    ∧ (∀ (values : List (String × String)) (key v : String),
        List.lookup key values = some v → lookupValue values key = v)
    ∧ (∀ (values : List (String × String)) (key : String),
        List.lookup key values = none →
        List.lookup key objectPrototypeMembers = none →
        lookupValue values key = "")
    ∧ applyTemplate "{a}{b}" [("a", "x")] = "x"
    ∧ applyTemplate "{lat}" [] = "" := by
  refine ⟨fun values t h => applyTemplate_literal values t h,
    fun values key rest h1 h2 => applyTemplate_token_prefix values key rest h1 h2,
    ?_, ?_, ?_, ?_⟩
  · intro values key v h
    unfold lookupValue
    rw [h]
  · intro values key h1 h2
    unfold lookupValue
    rw [h1, h2]
    rfl
  · simp [applyTemplate, renderChars, lookupValue, isWordChar, List.lookup,
      objectPrototypeMembers]
  · simp [applyTemplate, renderChars, lookupValue, isWordChar, List.lookup,
      objectPrototypeMembers]

/-- C6, counterexample to the claim as stated: the key `toString` is not
present in the value map, yet `render("{toString}", values)` substitutes
the inherited (truthy) `Object.prototype.toString` coerced to a string —
not the empty string the claim requires for every absent key. -/
theorem applyTemplate_proto_counterexample :
    List.lookup "toString" [("a", "x")] = none
    ∧ applyTemplate "{toString}" [("a", "x")] =
        "function toString() \x7b [native code] \x7d"
    ∧ applyTemplate "{toString}" [("a", "x")] ≠ "" := by
  refine ⟨rfl, ?_, ?_⟩
  · rw [show ("{toString}" : String) = "\x7b" ++ "toString" ++ "\x7d" from rfl,
      applyTemplate_single_token _ "toString" (by decide) (by decide)]
    rfl
  · rw [show ("{toString}" : String) = "\x7b" ++ "toString" ++ "\x7d" from rfl,
      applyTemplate_single_token _ "toString" (by decide) (by decide)]
    intro h
    exact absurd h (by decide)

/-- Witness for `applyTemplate_spec`: its hypothesis-bearing conjuncts
applied at concrete inputs. -/
theorem applyTemplate_spec_witness :
    applyTemplate "abc" [("a", "x")] = "abc"
    ∧ applyTemplate ("\x7b" ++ "a" ++ "\x7d" ++ "bc") [("a", "v")] =
        lookupValue [("a", "v")] "a" ++ applyTemplate "bc" [("a", "v")]
    ∧ lookupValue [("a", "v")] "a" = "v"
    ∧ lookupValue [("a", "v")] "zz" = "" :=
  ⟨applyTemplate_spec.1 [("a", "x")] "abc" (by decide),
    applyTemplate_spec.2.1 [("a", "v")] "a" "bc" (by decide) (by decide),
    applyTemplate_spec.2.2.1 [("a", "v")] "a" "v" rfl,
    applyTemplate_spec.2.2.2.1 [("a", "v")] "zz" rfl (by decide)⟩

/-- C1: in the saved-place branch of `formatLocation` the Address Resolver
(`reverseGeocode`) is never invoked (invocation count 0 for every
environment, location, and place), and the `{place}` and `{address}`
placeholders both render to the place's name. -/
theorem formatLocation_place_bypass (env : Env) (location : LocationResult)
    (place : SavedPlace) :
    (formatLocation env location (some (Sum.inr place))).2.reverseGeocode = 0
    ∧ (formatLocation env location
        (some (Sum.inr { place with template := "{place}" }))).1 = place.name
    ∧ (formatLocation env location
        (some (Sum.inr { place with template := "{address}" }))).1 = place.name := by
  refine ⟨rfl, ?_, ?_⟩
  · show applyTemplate "{place}"
      (placeValues env location { place with template := "{place}" } "" "") = place.name
    rw [show ("{place}" : String) = "\x7b" ++ "place" ++ "\x7d" from rfl,
      applyTemplate_single_token _ "place" (by decide) (by decide)]
    simp [lookupValue, placeValues, List.lookup]
  · show applyTemplate "{address}"
      (placeValues env location { place with template := "{address}" } "" "") = place.name
    rw [show ("{address}" : String) = "\x7b" ++ "address" ++ "\x7d" from rfl,
      applyTemplate_single_token _ "address" (by decide) (by decide)]
    simp [lookupValue, placeValues, List.lookup]

/-- C9: in the saved-place render path the value map binds `city` and
`country` to the empty string for every location, place and weather
outcome, so the `{city}` and `{country}` placeholders always render
empty. -/
theorem formatLocation_place_city_country_empty (env : Env)
    (location : LocationResult) (place : SavedPlace) :
    (∀ weatherStr tempStr : String,
      List.lookup "city" (placeValues env location place weatherStr tempStr) =
        some "" ∧
      List.lookup "country" (placeValues env location place weatherStr tempStr) =
        some "")
    ∧ (formatLocation env location
        (some (Sum.inr { place with template := "{city}" }))).1 = ""
    ∧ (formatLocation env location
        (some (Sum.inr { place with template := "{country}" }))).1 = "" := by
  refine ⟨fun weatherStr tempStr => ⟨?_, ?_⟩, ?_, ?_⟩
  · simp [lookupValue, placeValues, List.lookup]
  · simp [lookupValue, placeValues, List.lookup]
  · show applyTemplate "{city}"
      (placeValues env location { place with template := "{city}" } "" "") = ""
    rw [show ("{city}" : String) = "\x7b" ++ "city" ++ "\x7d" from rfl,
      applyTemplate_single_token _ "city" (by decide) (by decide)]
    simp [lookupValue, placeValues, List.lookup]
  · show applyTemplate "{country}"
      (placeValues env location { place with template := "{country}" } "" "") = ""
    rw [show ("{country}" : String) = "\x7b" ++ "country" ++ "\x7d" from rfl,
      applyTemplate_single_token _ "country" (by decide) (by decide)]
    simp [lookupValue, placeValues, List.lookup]

/-- C4 (amended): in the saved-place path the Weather Resolver is invoked
iff the place's own template references `{weather}` or `{temp}` — the
"include weather" setting is ignored there (see the counterexample).  In
the non-place path (after id resolution, to which `formatLocation`
reduces) it is invoked iff the "include weather" setting is enabled or
the selected custom template references a weather placeholder.  When the
resolver fails, the run still completes, with the weather
placeholders/suffix empty. -/
theorem formatLocation_weather_invocation :
    (∀ (env : Env) (location : LocationResult) (place : SavedPlace),
      (formatLocation env location (some (Sum.inr place))).2.getWeather =
        if templateNeedsWeather place.template = true then 1 else 0)
    ∧ (∀ (env : Env) (location : LocationResult) (id : String),
      (formatLocationWithId env location id).2.getWeather = 1 ↔
        (env.settings.includeWeather = true ∨
          ∃ t, lookupCustomTemplate env.settings id = some t ∧
            templateNeedsWeather t.template = true))
    ∧ (∀ (env : Env) (location : LocationResult) (fid : String), ¬ fid = "" →
      formatLocation env location (some (Sum.inl fid)) =
        formatLocationWithId env location fid)
    ∧ (∀ (env : Env) (location : LocationResult) (place : SavedPlace),
      env.weatherResult = none →
      (formatLocation env location
        (some (Sum.inr { place with template := "{weather}{temp}" }))).1 = "")
    ∧ (∀ (env : Env) (location : LocationResult),
      env.weatherResult = none → env.settings.includeTimestamp = false →
      (formatLocationWithId env location "coords").1 =
        env.toFixed6 location.latitude ++ ", " ++ env.toFixed6 location.longitude ++
          (if location.isApproximate then " (approximate)" else "")) := by
  refine ⟨fun env location place => rfl, ?_, ?_, ?_, ?_⟩
  · intro env location id
    unfold formatLocationWithId
    cases hct : lookupCustomTemplate env.settings id with
    | some t =>
        simp only [hct]
        by_cases h2 : templateNeedsWeather t.template = true
        · simp only [h2, Bool.or_true, if_true]
          simp [h2]
        · rw [Bool.not_eq_true] at h2
          cases h1 : env.settings.includeWeather <;> simp [h1, h2]
    | none =>
        simp only [hct]
        cases h1 : env.settings.includeWeather <;> split_ifs <;> simp_all
  · intro env location fid h
    show formatLocationWithId env location
      (if fid = "" then env.settings.format else fid) =
        formatLocationWithId env location fid
    rw [if_neg h]
  · intro env location place h
    show applyTemplate "{weather}{temp}"
      (placeValues env location { place with template := "{weather}{temp}" }
        ((env.weatherResult.map weatherLine).getD "")
        ((env.weatherResult.map tempLine).getD "")) = ""
    rw [h]
    rw [show ("{weather}{temp}" : String) = "\x7b" ++ "weather" ++ "\x7d" ++ "{temp}" from rfl,
      applyTemplate_token_prefix _ "weather" "{temp}" (by decide) (by decide),
      show ("{temp}" : String) = "\x7b" ++ "temp" ++ "\x7d" from rfl,
      applyTemplate_single_token _ "temp" (by decide) (by decide)]
    simp [lookupValue, placeValues, List.lookup]
  · intro env location h ht
    unfold formatLocationWithId
    have hct : lookupCustomTemplate env.settings "coords" = none := rfl
    simp only [hct, h, ht]
    simp

def placeC4 : SavedPlace :=
  { id := "e", name := "NoWeather", latitude := 0, longitude := 0,
    radius := 200, template := "{place}" }

def envC4 : Env :=
  { settings :=
      { settings0 with includeWeather := true, savedPlaces := [placeC4] },
    toFixed6 := fun _ => "", numToStr := fun _ => "",
    now := { date := "", time := "", datetime := "", iso := "" },
    reverseGeocodeResult := none,
    weatherResult := some { temperature := 20, unit := "°C", description := "Clear" } }

/-- C4, counterexample to the claim as stated: with the "include weather"
setting enabled and a saved place whose template has no weather
placeholder, the saved-place path does not invoke the Weather Resolver at
all, although the claim requires an invocation whenever the setting is
enabled. -/
theorem formatLocation_weather_counterexample :
    envC4.settings.includeWeather = true ∧
      ¬ ((formatLocation envC4 loc0 (some (Sum.inr placeC4))).2.getWeather = 1 ↔
        (templateNeedsWeather placeC4.template = true ∨
          envC4.settings.includeWeather = true)) := by
  refine ⟨rfl, ?_⟩
  intro h
  have h1 : (formatLocation envC4 loc0 (some (Sum.inr placeC4))).2.getWeather = 0 := rfl
  have h2 := h.mpr (Or.inr rfl)
  rw [h1] at h2
  exact absurd h2 (by decide)

/-- Witness for `formatLocation_weather_invocation`: its hypothesis-bearing
conjuncts applied at concrete inputs. -/
theorem formatLocation_weather_invocation_witness :
    formatLocation env0 loc0 (some (Sum.inl "coords")) =
      formatLocationWithId env0 loc0 "coords"
    ∧ (formatLocation env0 loc0
        (some (Sum.inr { placeC8 with template := "{weather}{temp}" }))).1 = ""
    ∧ (formatLocationWithId env0 loc0 "coords").1 =
        env0.toFixed6 loc0.latitude ++ ", " ++ env0.toFixed6 loc0.longitude ++
          (if loc0.isApproximate then " (approximate)" else "") :=
  ⟨formatLocation_weather_invocation.2.2.1 env0 loc0 "coords" (by decide),
    formatLocation_weather_invocation.2.2.2.1 env0 loc0 placeC8 rfl,
    formatLocation_weather_invocation.2.2.2.2 env0 loc0 rfl rfl⟩

/-- C5: `getLocation` returns the GPS fix whenever the precise strategy
succeeds and falls back to `getIPLocation` on any GPS failure; every
IP-derived coordinate carries `isApproximate = true` and accuracy exactly
5000; an IP response with status `"fail"` makes the acquisition fail; and
when both strategies fail, the ribbon action collapses to the single
`failed` outcome ("Failed to get location" notice) with no text
inserted. -/
theorem getLocation_fallback_spec :
    (∀ (l : LocationResult) (ipResponse : Option IPData),
      getLocation (some l) ipResponse = some l)
    ∧ (∀ ipResponse : Option IPData,
      getLocation none ipResponse = getIPLocation ipResponse)
    ∧ (∀ d : IPData, ¬ d.status = "fail" →
      getIPLocation (some d) =
        some { latitude := d.lat, longitude := d.lon, accuracy := 5000, isApproximate := true })
    ∧ (∀ d : IPData, d.status = "fail" → getIPLocation (some d) = none)
    ∧ (∀ (env : Env) (response : PickerResponse),
      ribbonAction env none none response = ActionOutcome.failed)
    ∧ (∀ (env : Env) (response : PickerResponse) (d : IPData),
      d.status = "fail" →
      ribbonAction env none (some d) response = ActionOutcome.failed) := by
  refine ⟨fun l ip => rfl, fun ip => rfl, ?_, ?_, fun env r => rfl, ?_⟩
  · intro d h
    simp [getIPLocation, h]
  · intro d h
    simp [getIPLocation, h]
  · intro env r d h
    simp [ribbonAction, getLocation, getIPLocation, h]

def ipFail : IPData :=
  { status := "fail", message := some "quota", lat := 0, lon := 0 }

def ipOk : IPData :=
  { status := "success", message := none, lat := 52, lon := 21 }

/-- Witness for `getLocation_fallback_spec`: its hypothesis-bearing
conjuncts applied at concrete IP responses. -/
theorem getLocation_fallback_spec_witness :
    getIPLocation (some ipOk) =
      some { latitude := ipOk.lat, longitude := ipOk.lon, accuracy := 5000, isApproximate := true }
    ∧ getIPLocation (some ipFail) = none
    ∧ ribbonAction env0 none (some ipFail) PickerResponse.dismiss =
        ActionOutcome.failed :=
  ⟨getLocation_fallback_spec.2.2.1 ipOk (by decide),
    getLocation_fallback_spec.2.2.2.1 ipFail rfl,
    getLocation_fallback_spec.2.2.2.2.2 env0 PickerResponse.dismiss ipFail rfl⟩

def envC8 : Env :=
  { settings := { settings0 with savedPlaces := [placeC8] },
    toFixed6 := fun _ => "", numToStr := fun _ => "",
    now := { date := "", time := "", datetime := "", iso := "" },
    reverseGeocodeResult := none, weatherResult := none }

/-- C8: the source resolves the place-picker promise only from
`onChooseSuggestion`; dismissing the modal therefore leaves the cycle
suspended forever (`pending`) instead of proceeding as "use detected
location" — the cycle does not run to completion and produces no output.
Explicitly selecting the "Use detected location" entry (index 1 here)
does complete the cycle with the detected location.  This contradicts the
claim, which requires dismissal to behave like "use detected location". -/
theorem resolvePlace_dismiss_pending :
    ribbonAction envC8 (some loc0) none PickerResponse.dismiss =
      ActionOutcome.pending
    ∧ ribbonAction envC8 (some loc0) none (PickerResponse.select 1) =
        ActionOutcome.inserted
          (formatLocation envC8 loc0 (some (Sum.inl envC8.settings.format))).1 := by
  have hm : findMatchingPlaces loc0 [placeC8] =
      [{ place := placeC8, distance := 0 }] :=
    findMatchingPlaces_single_eval placeC8 rfl rfl (by norm_num [placeC8])
  constructor
  · have h1 : resolvePlaceOutcome
        [({ place := placeC8, distance := 0 } : PlaceMatch)]
        PickerResponse.dismiss = none := by
      unfold resolvePlaceOutcome
      rw [if_neg (by simp)]
    simp only [ribbonAction, getLocation]
    rw [show envC8.settings.savedPlaces = [placeC8] from rfl, hm, h1]
  · have h2 : resolvePlaceOutcome
        [({ place := placeC8, distance := 0 } : PlaceMatch)]
        (PickerResponse.select 1) = some none := by
      unfold resolvePlaceOutcome
      rw [if_neg (by simp)]
      show (if h : 1 < (pickerOptions
          [({ place := placeC8, distance := 0 } : PlaceMatch)]).length then
        some ((pickerOptions
          [({ place := placeC8, distance := 0 } : PlaceMatch)]).get ⟨1, h⟩).place
        else none) = some none
      rw [dif_pos (by simp [pickerOptions])]
      rfl
    simp only [ribbonAction, getLocation]
    rw [show envC8.settings.savedPlaces = [placeC8] from rfl, hm, h2]

/-- C7 (amended): with `update = false` and an existing (truthy) `location`
field in the frontmatter, the callback changes nothing and reports the
existing-location condition; with `update = true` the existing location
field is overwritten with the freshly acquired rounded coordinates
*provided the `location` frontmatter field is enabled in settings*
(`frontmatterFields.location`, enabled by default) — with that field
disabled, `update = true` leaves the location untouched (see the
counterexample) — and the existing-location condition is never reported
on the update path. -/
theorem insertFrontmatterCallback_guard :
    (∀ (update : Bool) (fields : FrontmatterFields) (location : LocationResult)
        (address : Option AddressResult) (weather : Option WeatherResult)
        (iso : String) (fm : Frontmatter),
        update = false → fm.location.isSome →
        insertFrontmatterCallback update fields location address weather iso fm =
          (fm, true))
    ∧ (∀ (fields : FrontmatterFields) (location : LocationResult)
        (address : Option AddressResult) (weather : Option WeatherResult)
        (iso : String) (fm : Frontmatter), fields.location = true →
        (insertFrontmatterCallback true fields location address weather iso fm).1.location =
          some [round6 location.latitude, round6 location.longitude])
    ∧ (∀ (fields : FrontmatterFields) (location : LocationResult)
        (address : Option AddressResult) (weather : Option WeatherResult)
        (iso : String) (fm : Frontmatter),
        (insertFrontmatterCallback true fields location address weather iso fm).2 =
          false) := by
  refine ⟨?_, ?_, ?_⟩
  · intro update fields location address weather iso fm hu hl
    unfold insertFrontmatterCallback
    rw [if_pos ⟨hu, hl⟩]
  · intro fields location address weather iso fm hf
    unfold insertFrontmatterCallback
    rw [if_neg (by simp)]
    simp only [hf, if_true]
    cases address <;> cases weather <;>
      cases hA : fields.address <;> cases hD : fields.datetime <;>
        cases hW : fields.weather <;> simp [hA, hD, hW]
  · intro fields location address weather iso fm
    unfold insertFrontmatterCallback
    rw [if_neg (by simp)]

def fieldsOff : FrontmatterFields :=
  { location := false, address := false, datetime := false, weather := false }

def fmC7 : Frontmatter :=
  { location := some [9], address := none, datetime := none, weather := none }

def fmEmpty : Frontmatter :=
  { location := none, address := none, datetime := none, weather := none }

/-- C7, counterexample to the claim as stated: with the `location`
frontmatter field disabled in settings, an update (`update = true`) leaves
the existing location field unchanged instead of overwriting it with the
acquired coordinates. -/
theorem insertFrontmatterCallback_counterexample :
    (insertFrontmatterCallback true fieldsOff loc0 none none "" fmC7).1.location =
      some [(9 : ℝ)]
    ∧ some [(9 : ℝ)] ≠
        some [round6 loc0.latitude, round6 loc0.longitude] := by
  constructor
  · rfl
  · intro h
    have h2 : [(9 : ℝ)] = [round6 loc0.latitude, round6 loc0.longitude] :=
      Option.some.inj h
    exact absurd (congrArg List.length h2) (by simp)

/-- Witness for `insertFrontmatterCallback_guard`: both hypothesis-bearing
conjuncts applied at concrete inputs. -/
theorem insertFrontmatterCallback_guard_witness :
    insertFrontmatterCallback false fieldsOff loc0 none none "" fmC7 = (fmC7, true)
    ∧ (insertFrontmatterCallback true defaultFields loc0 none none "" fmC7).1.location =
        some [round6 loc0.latitude, round6 loc0.longitude] :=
  ⟨insertFrontmatterCallback_guard.1 false fieldsOff loc0 none none "" fmC7 rfl rfl,
    insertFrontmatterCallback_guard.2.1 defaultFields loc0 none none "" fmC7 rfl⟩

/-- C10: on a successful frontmatter insertion the stored coordinates are
the acquired latitude/longitude rounded to 6 decimal places
(`parseFloat(x.toFixed(6))`, modelled as `round6`), not the raw values:
`round6 x` is always an integer multiple of `10⁻⁶`, differs from `x` by at
most `5·10⁻⁷`, and genuinely discards precision (e.g. `10⁻⁷` becomes
`0`). -/
theorem insertFrontmatterCallback_rounding :
    (∀ (fields : FrontmatterFields) (location : LocationResult)
        (address : Option AddressResult) (weather : Option WeatherResult)
        (iso : String) (fm : Frontmatter),
        fields.location = true → fm.location = none →
        (insertFrontmatterCallback false fields location address weather iso fm).1.location =
          some [round6 location.latitude, round6 location.longitude])
    ∧ (∀ x : ℝ, (∃ n : ℤ, round6 x = (n : ℝ) / 1000000) ∧
        |round6 x - x| ≤ 1 / 2000000)
    ∧ round6 ((1 : ℝ) / 10000000) = 0
    ∧ ((1 : ℝ) / 10000000) ≠ 0 := by
  refine ⟨?_, ?_, ?_, by norm_num⟩
  · intro fields location address weather iso fm hf hl
    unfold insertFrontmatterCallback
    rw [if_neg (by simp [hl])]
    simp only [hf, if_true]
    cases address <;> cases weather <;>
      cases hA : fields.address <;> cases hD : fields.datetime <;>
        cases hW : fields.weather <;> simp [hA, hD, hW]
  · intro x
    refine ⟨⟨round (x * 1000000), rfl⟩, ?_⟩
    unfold round6
    have h := abs_sub_round (x * 1000000)
    have h2 : |(round (x * 1000000) : ℝ) / 1000000 - x| =
        |(round (x * 1000000) : ℝ) - x * 1000000| / 1000000 := by
      rw [← abs_of_pos (show (0 : ℝ) < 1000000 by norm_num), ← abs_div]
      congr 1
      field_simp
      ring
    rw [h2, abs_sub_comm]
    calc |x * 1000000 - (round (x * 1000000) : ℝ)| / 1000000
        ≤ (1 / 2) / 1000000 := by
          apply div_le_div_of_nonneg_right ?_ (by norm_num)
          exact h
      _ = 1 / 2000000 := by norm_num
  · unfold round6
    have h : round ((1 : ℝ) / 10000000 * 1000000) = 0 := by
      rw [show (1 : ℝ) / 10000000 * 1000000 = 1 / 10 by norm_num]
      rw [round_eq_zero_iff]
      constructor <;> norm_num
    rw [h]
    norm_num

/-- Witness for `insertFrontmatterCallback_rounding`: the insertion
conjunct applied at a concrete empty frontmatter. -/
theorem insertFrontmatterCallback_rounding_witness :
    (insertFrontmatterCallback false defaultFields loc0 none none "" fmEmpty).1.location =
      some [round6 loc0.latitude, round6 loc0.longitude] :=
  insertFrontmatterCallback_rounding.1 defaultFields loc0 none none "" fmEmpty rfl rfl
